import Mathlib

/-!
Verification of the Salla integration core against its specification.
The definitions below are shallow embeddings of the Python source:
webhook signature validation and dispatch, remote client error
classification, OAuth token lifecycle, product and category pull
synchronization, field sync status marking, image set diffing and
multi warehouse stock allocation. Machine level effects are made
explicit: frappe documents become records, the database becomes an
explicit store threaded through each function, and Python exceptions
become Except values.
-/

/-- Exceptions that a Python execution of the gateway code can raise:
TypeError from hmac.new on a non bytes payload, ValueError from int(),
plus the frappe.throw exception classes used by the webhook endpoint and
the re-raised handler exception. -/
inductive PyErr where
  | typeError
  | valueError
  | validationError (msg : String)
  | authenticationError (msg : String)
  | handlerError (event : String) (msg : String)
deriving DecidableEq, Repr

/-- A webhook payload as returned by frappe request get_json: the event
field plus the remaining JSON data, kept opaque as key value pairs. -/
structure WebhookPayload where
  event : Option String
  data : List (String × String)
deriving DecidableEq, Repr

/-- The dynamically typed payload argument that Python passes to the
signature validator: either the raw request body bytes, or the already
parsed JSON payload object. -/
inductive PyWebhookArg where
  | bytes (b : List Nat)
  | jsonDict (p : WebhookPayload)
deriving DecidableEq, Repr

/-- Shallow embedding of validate_webhook_signature from
core/webhooks/validators.py. The parameter hmacHex stands for the
library function computing hex(HMAC-SHA256(secret, payload)) over a
bytes payload; hmac.new raises TypeError when the payload is not a
bytes object, and the constant time hmac.compare_digest is modelled as
string equality. A falsy signature (absent or empty) is rejected first;
a falsy webhook secret skips validation and accepts. -/
def validate_webhook_signature (hmacHex : String → List Nat → String)
    (webhook_secret : Option String) (payload : PyWebhookArg)
    (signature : Option String) : Except PyErr Bool :=
  if signature = none ∨ signature = some "" then
    Except.ok false
  else if webhook_secret = none ∨ webhook_secret = some "" then
    Except.ok true
  else
    match webhook_secret, payload with
    | some secret, PyWebhookArg.bytes b =>
        Except.ok (decide (signature = some (hmacHex secret b)))
    | _, PyWebhookArg.jsonDict _ => Except.error PyErr.typeError
    | none, _ => Except.ok true

/-- A registered webhook handler: runs on the payload and either returns
or raises an exception carrying a message. -/
def WebhookHandler : Type := WebhookPayload → Except String Unit

/-- Shallow embedding of WebhookRegistry.dispatch: looks up the handler
for the event type, runs it, logs a handler exception under the title
Salla Webhook Error and re-raises it, and reports whether a handler was
found. The first component collects frappe log_error titles. -/
def webhook_dispatch (handlers : List (String × WebhookHandler))
    (event_type : String) (payload : WebhookPayload) :
    List String × Except PyErr Bool :=
  match handlers.lookup event_type with
  | some h =>
    match h payload with
    | Except.ok _ => ([], Except.ok true)
    | Except.error msg =>
        (["Salla Webhook Error"], Except.error (PyErr.handlerError event_type msg))
  | none => ([], Except.ok false)

/-- The acknowledgement body returned by the webhook endpoint. -/
structure WebhookAck where
  status : String
  event : String
deriving DecidableEq, Repr

/-- Shallow embedding of handle_webhook from core/webhooks/registry.py.
The gateway passes the parsed JSON payload, not the raw request body
bytes, to the signature validator, exactly as the source does, and a
falsy event type (absent or empty) is rejected with ValidationError
before dispatch. Returns
the list of frappe log titles produced, next to the outcome: either the
acknowledgement or the uncaught exception. -/
def handle_webhook (hmacHex : String → List Nat → String)
    (webhook_secret : Option String)
    (handlers : List (String × WebhookHandler))
    (parsed_payload : Option WebhookPayload)
    (signature : Option String) :
    List String × Except PyErr WebhookAck :=
  match parsed_payload with
  | none => ([], Except.error (PyErr.validationError "No payload received"))
  | some payload =>
    match validate_webhook_signature hmacHex webhook_secret
        (PyWebhookArg.jsonDict payload) signature with
    | Except.error e => ([], Except.error e)
    | Except.ok valid =>
      if valid then
        match payload.event with
        | none => ([], Except.error (PyErr.validationError "No event type in payload"))
        | some event_type =>
          if event_type = "" then
            ([], Except.error (PyErr.validationError "No event type in payload"))
          else
          match webhook_dispatch handlers event_type payload with
          | (dlogs, Except.error e) => ("Salla Webhook Log" :: dlogs, Except.error e)
          | (dlogs, Except.ok handled) =>
            if handled then
              ("Salla Webhook Log" :: dlogs,
               Except.ok { status := "received", event := event_type })
            else
              ("Salla Webhook Log" :: (dlogs ++ ["Salla Webhook Warning"]),
               Except.ok { status := "received", event := event_type })
      else
        ([], Except.error (PyErr.authenticationError "Invalid webhook signature"))

/-- A concrete stand in for the hex HMAC function, used to evaluate the
gateway on closed inputs. -/
def exampleHmacHex (secret : String) (b : List Nat) : String :=
  secret ++ "-" ++ toString (b.foldl (fun a x => a + x) 0)

/-- Concrete raw body bytes of a webhook request. -/
def exampleRawBody : List Nat := [123, 34, 101, 118, 101, 110, 116, 34, 125]

/-- C1: the gateway is claimed to accept the original payload carried
with its original correct signature. In the source, handle_webhook hands
the parsed JSON object, not the raw payload bytes, to
validate_webhook_signature, so with a configured secret hmac.new raises
TypeError and even a correctly signed request is never accepted: the
endpoint fails with TypeError instead of returning the acknowledgement. -/
theorem C1_correctly_signed_request_not_accepted :
    (handle_webhook exampleHmacHex (some "sec") []
      (some { event := some "order.created", data := [] })
      (some (exampleHmacHex "sec" exampleRawBody))).2
      = Except.error PyErr.typeError := by
  rfl

/-- The validator itself, applied to raw bytes as its type annotation
requires, behaves as the specification describes: with a configured
secret, an absent signature is rejected, a mismatched signature is
rejected, and the exact hex HMAC of the payload is accepted. -/
theorem validator_on_bytes_fails_closed (hmacHex : String → List Nat → String)
    (secret : String) (hs : secret ≠ "") (b : List Nat) (sig : String) :
    validate_webhook_signature hmacHex (some secret) (PyWebhookArg.bytes b) none
        = Except.ok false
    ∧ (sig ≠ hmacHex secret b →
        validate_webhook_signature hmacHex (some secret) (PyWebhookArg.bytes b) (some sig)
          = Except.ok false)
    ∧ (sig = hmacHex secret b → sig ≠ "" →
        validate_webhook_signature hmacHex (some secret) (PyWebhookArg.bytes b) (some sig)
          = Except.ok true) := by
  refine ⟨rfl, ?_, ?_⟩
  · intro hne
    simp [validate_webhook_signature, hs, hne]
  · intro he hne
    subst he
    simp [validate_webhook_signature, hs, hne]

/-- Closed instance of the previous validator theorem. -/
theorem validator_on_bytes_fails_closed_witness :
    validate_webhook_signature exampleHmacHex (some "sec")
        (PyWebhookArg.bytes exampleRawBody) none = Except.ok false
    ∧ ("bad" ≠ exampleHmacHex "sec" exampleRawBody →
        validate_webhook_signature exampleHmacHex (some "sec")
          (PyWebhookArg.bytes exampleRawBody) (some "bad") = Except.ok false) := by
  have h := validator_on_bytes_fails_closed exampleHmacHex "sec" (by decide)
      exampleRawBody "bad"
  exact ⟨h.1, h.2.1⟩

/-- A handler that always raises, used for closed evaluations. -/
def failingHandler : WebhookHandler := fun _ => Except.error "boom"

/-- C6 counterexample: a validated webhook whose registered handler
raises does not get the acknowledgement; the handler exception is
re-raised by the registry and propagates out of handle_webhook. The
secret is unconfigured here so that signature validation passes. -/
theorem C6_handler_exception_no_ack :
    (handle_webhook exampleHmacHex none [("order.created", failingHandler)]
      (some { event := some "order.created", data := [] })
      (some "sig")).2
      = Except.error (PyErr.handlerError "order.created" "boom")
    ∧ (handle_webhook exampleHmacHex none [("order.created", failingHandler)]
      (some { event := some "order.created", data := [] })
      (some "sig")).2
      ≠ Except.ok { status := "received", event := "order.created" } := by
  constructor
  · rfl
  · intro h
    simp [handle_webhook, validate_webhook_signature, webhook_dispatch,
      failingHandler] at h

/-- C6 amended: for every webhook whose signature validates and that
carries a non empty event type, a raising handler is logged under Salla
Webhook Error and its exception is re-raised, so the gateway returns
the exception and no acknowledgement; an unregistered event type is
logged under Salla Webhook Warning and the acknowledgement is still
returned. -/
theorem C6_amended_dispatch_behaviour :
    (∀ (hmacHex : String → List Nat → String) (secret : Option String)
        (handlers : List (String × WebhookHandler)) (payload : WebhookPayload)
        (sig : Option String) (e : String) (h : WebhookHandler) (msg : String),
      validate_webhook_signature hmacHex secret (PyWebhookArg.jsonDict payload) sig
          = Except.ok true →
      payload.event = some e → e ≠ "" →
      handlers.lookup e = some h →
      h payload = Except.error msg →
      (handle_webhook hmacHex secret handlers (some payload) sig).2
          = Except.error (PyErr.handlerError e msg)
        ∧ "Salla Webhook Error" ∈ (handle_webhook hmacHex secret handlers (some payload) sig).1)
    ∧ (∀ (hmacHex : String → List Nat → String) (secret : Option String)
        (handlers : List (String × WebhookHandler)) (payload : WebhookPayload)
        (sig : Option String) (e : String),
      validate_webhook_signature hmacHex secret (PyWebhookArg.jsonDict payload) sig
          = Except.ok true →
      payload.event = some e → e ≠ "" →
      handlers.lookup e = none →
      (handle_webhook hmacHex secret handlers (some payload) sig).2
          = Except.ok { status := "received", event := e }
        ∧ "Salla Webhook Warning" ∈ (handle_webhook hmacHex secret handlers (some payload) sig).1) := by
  constructor
  · intro hmacHex secret handlers payload sig e h msg hv he hne hl hh
    simp [handle_webhook, hv, he, hne, webhook_dispatch, hl, hh]
  · intro hmacHex secret handlers payload sig e hv he hne hl
    simp [handle_webhook, hv, he, hne, webhook_dispatch, hl]

/-- Closed witness for the amended C6 theorem, instantiating both the
raising handler arm and the unregistered event arm. -/
theorem C6_amended_dispatch_behaviour_witness :
    ((handle_webhook exampleHmacHex none [("order.created", failingHandler)]
        (some { event := some "order.created", data := [] }) (some "sig")).2
        = Except.error (PyErr.handlerError "order.created" "boom"))
    ∧ ((handle_webhook exampleHmacHex none []
        (some { event := some "order.created", data := [] }) (some "sig")).2
        = Except.ok { status := "received", event := "order.created" }) := by
  constructor
  · exact (C6_amended_dispatch_behaviour.1 exampleHmacHex none
      [("order.created", failingHandler)]
      { event := some "order.created", data := [] } (some "sig")
      "order.created" failingHandler "boom" rfl rfl (by decide) rfl rfl).1
  · exact (C6_amended_dispatch_behaviour.2 exampleHmacHex none []
      { event := some "order.created", data := [] } (some "sig")
      "order.created" rfl rfl (by decide) rfl).1

/-- Parsed error body of an HTTP response, as the client reads it. -/
structure ErrorBody where
  message : Option String
  errors : List (String × String)
deriving DecidableEq, Repr

/-- An HTTP response as the client observes it: status code, the JSON
body when response.json() succeeds (none models a ValueError there),
the raw text, and the Retry-After header. -/
structure HttpResponse where
  status_code : Nat
  jsonBody : Option ErrorBody
  text : String
  retryAfterHeader : Option String
deriving DecidableEq, Repr

/-- The typed error taxonomy raised by the client, together with the
plain Python ValueError that escapes from int() on a malformed
Retry-After header. Status codes are optional because the auth errors
raised outside a response carry none. -/
inductive SallaError where
  | apiError (message : String) (status_code : Option Nat)
  | authenticationError (message : String) (status_code : Option Nat)
  | notFoundError (message : String) (status_code : Option Nat)
  | validationError (message : String) (status_code : Option Nat)
      (errors : List (String × String))
  | rateLimitError (message : String) (status_code : Option Nat)
      (retry_after : Option Int)
  | connectionError (message : String)
  | timeoutError (message : String)
  | pyValueError
deriving DecidableEq, Repr

/-- Digit run parsing used by the Python int() model: every character
must be a decimal digit and there must be at least one. -/
def pyIntDigits : List Char → Option Nat
  | [] => none
  | cs =>
    if cs.all Char.isDigit then
      some (cs.foldl (fun a c => a * 10 + (c.toNat - 48)) 0)
    else none

/-- Model of Python int(str): optional surrounding whitespace, an
optional sign, then decimal digits; anything else raises ValueError,
modelled as none. -/
def pyInt (s : String) : Option Int :=
  let trimmed :=
    ((s.toList.dropWhile Char.isWhitespace).reverse.dropWhile Char.isWhitespace).reverse
  match trimmed with
  | '-' :: rest => (pyIntDigits rest).map (fun n => -(n : Int))
  | '+' :: rest => (pyIntDigits rest).map (fun n => (n : Int))
  | cs => (pyIntDigits cs).map (fun n => (n : Int))

/-- The error_data dictionary built by _handle_response_errors: the JSON
body when it parses, otherwise a body whose message is the raw text. -/
def responseErrorData (r : HttpResponse) : ErrorBody :=
  match r.jsonBody with
  | some b => b
  | none => { message := some r.text, errors := [] }

/-- The error message the client attaches: the message field of the
error data, defaulting to Unknown error. -/
def response_error_message (r : HttpResponse) : String :=
  (responseErrorData r).message.getD "Unknown error"

/-- Shallow embedding of SallaClient._handle_response_errors: the fixed
classification of response status codes into the typed taxonomy. -/
def handle_response_errors (r : HttpResponse) : Except SallaError Unit :=
  if r.status_code = 200 ∨ r.status_code = 201 then Except.ok ()
  else
    let error_message := response_error_message r
    if r.status_code = 401 then
      Except.error (SallaError.authenticationError error_message (some r.status_code))
    else if r.status_code = 404 then
      Except.error (SallaError.notFoundError error_message (some r.status_code))
    else if r.status_code = 422 then
      Except.error (SallaError.validationError error_message (some r.status_code)
        (responseErrorData r).errors)
    else if r.status_code = 429 then
      match r.retryAfterHeader with
      | none => Except.error (SallaError.rateLimitError error_message (some r.status_code) none)
      | some h =>
        if h = "" then
          Except.error (SallaError.rateLimitError error_message (some r.status_code) none)
        else
          match pyInt h with
          | some n =>
              Except.error (SallaError.rateLimitError error_message (some r.status_code) (some n))
          | none => Except.error SallaError.pyValueError
    else if r.status_code ≥ 400 then
      Except.error (SallaError.apiError error_message (some r.status_code))
    else Except.ok ()

/-- Outcome of one transport level HTTP request. -/
inductive TransportOutcome where
  | response (r : HttpResponse)
  | timeout
  | connectionFailure (reason : String)
deriving DecidableEq, Repr

/-- Shallow embedding of SallaClient._make_request: it issues exactly
one request, here the transport outcome at index 0, classifies the
response, and maps requests library timeouts and connection errors to
the typed taxonomy. No retry happens inside the client. -/
def make_request (endpoint : String) (timeoutSecs : Nat)
    (transport : Nat → TransportOutcome) : Except SallaError HttpResponse :=
  match transport 0 with
  | TransportOutcome.response r =>
    match handle_response_errors r with
    | Except.ok _ => Except.ok r
    | Except.error e => Except.error e
  | TransportOutcome.timeout =>
      Except.error (SallaError.timeoutError
        ("Request to " ++ endpoint ++ " timed out after " ++ toString timeoutSecs ++ " seconds"))
  | TransportOutcome.connectionFailure reason =>
      Except.error (SallaError.connectionError ("Failed to connect to Salla API: " ++ reason))

/-- A concrete 429 response with a non numeric Retry-After header. -/
def response429BadHeader : HttpResponse :=
  { status_code := 429, jsonBody := some { message := some "Too many requests", errors := [] },
    text := "", retryAfterHeader := some "abc" }

/-- C3 counterexample: a 429 response whose Retry-After header is not an
integer makes int() raise, so the client escapes with a plain ValueError
instead of raising RateLimitError, against the claimed totality. -/
theorem C3_429_nonnumeric_retry_after_raises_valueerror :
    handle_response_errors response429BadHeader = Except.error SallaError.pyValueError := by
  rfl

/-- C3 amended: response classification matches the claimed table, with
the 429 arm corrected: retry_after is the parsed integer when the header
is a non empty integer string and none when the header is absent or
empty, while a non numeric header raises ValueError instead of
RateLimitError. Timeouts and connection failures map to the typed
errors, and the result of a call depends only on the first transport
outcome: the client never retries. -/
theorem C3_amended_error_classification :
    (∀ r : HttpResponse,
      ((r.status_code = 200 ∨ r.status_code = 201) → handle_response_errors r = Except.ok ())
      ∧ (r.status_code = 401 → handle_response_errors r
            = Except.error (SallaError.authenticationError (response_error_message r) (some 401)))
      ∧ (r.status_code = 404 → handle_response_errors r
            = Except.error (SallaError.notFoundError (response_error_message r) (some 404)))
      ∧ (r.status_code = 422 → handle_response_errors r
            = Except.error (SallaError.validationError (response_error_message r) (some 422)
                (responseErrorData r).errors))
      ∧ (r.status_code = 429 → (r.retryAfterHeader = none ∨ r.retryAfterHeader = some "") →
            handle_response_errors r
              = Except.error (SallaError.rateLimitError (response_error_message r) (some 429) none))
      ∧ (∀ h n, r.status_code = 429 → r.retryAfterHeader = some h → h ≠ "" → pyInt h = some n →
            handle_response_errors r
              = Except.error (SallaError.rateLimitError (response_error_message r) (some 429) (some n)))
      ∧ (∀ h, r.status_code = 429 → r.retryAfterHeader = some h → h ≠ "" → pyInt h = none →
            handle_response_errors r = Except.error SallaError.pyValueError)
      ∧ (r.status_code ≥ 400 → r.status_code ≠ 401 → r.status_code ≠ 404 →
            r.status_code ≠ 422 → r.status_code ≠ 429 →
            handle_response_errors r
              = Except.error (SallaError.apiError (response_error_message r) (some r.status_code))))
    ∧ (∀ endpoint ts (t₁ t₂ : Nat → TransportOutcome), t₁ 0 = t₂ 0 →
        make_request endpoint ts t₁ = make_request endpoint ts t₂)
    ∧ (∀ endpoint ts (t : Nat → TransportOutcome), t 0 = TransportOutcome.timeout →
        ∃ msg, make_request endpoint ts t = Except.error (SallaError.timeoutError msg))
    ∧ (∀ endpoint ts (t : Nat → TransportOutcome) reason,
        t 0 = TransportOutcome.connectionFailure reason →
        ∃ msg, make_request endpoint ts t = Except.error (SallaError.connectionError msg)) := by
  refine ⟨fun r => ⟨?_, ?_, ?_, ?_, ?_, ?_, ?_, ?_⟩, ?_, ?_, ?_⟩
  · intro h
    simp [handle_response_errors, h]
  · intro h
    simp [handle_response_errors, h]
  · intro h
    simp [handle_response_errors, h]
  · intro h
    simp [handle_response_errors, h]
  · intro h hra
    rcases hra with hra | hra <;> simp [handle_response_errors, h, hra]
  · intro hh n h hra hne hpy
    simp [handle_response_errors, h, hra, hne, hpy]
  · intro hh h hra hne hpy
    simp [handle_response_errors, h, hra, hne, hpy]
  · intro h400 h401 h404 h422 h429
    have h200 : r.status_code ≠ 200 := by omega
    have h201 : r.status_code ≠ 201 := by omega
    simp [handle_response_errors, h200, h201, h401, h404, h422, h429, h400]
  · intro endpoint ts t₁ t₂ h
    simp [make_request, h]
  · intro endpoint ts t h
    refine ⟨"Request to " ++ endpoint ++ " timed out after " ++ toString ts ++ " seconds", ?_⟩
    simp [make_request, h]
  · intro endpoint ts t reason h
    refine ⟨"Failed to connect to Salla API: " ++ reason, ?_⟩
    simp [make_request, h]

/-- A concrete 429 response with an integer Retry-After header. -/
def response429Good : HttpResponse :=
  { status_code := 429, jsonBody := some { message := some "Too many requests", errors := [] },
    text := "", retryAfterHeader := some "7" }

/-- A transport that always answers with the 429 response. -/
def transportA : Nat → TransportOutcome := fun _ => TransportOutcome.response response429Good

/-- A transport that answers the 429 response first and would time out
on any retry, showing the result never depends on later outcomes. -/
def transportB : Nat → TransportOutcome := fun n =>
  match n with
  | 0 => TransportOutcome.response response429Good
  | _ => TransportOutcome.timeout

/-- Closed witness for the amended C3 theorem: the parsed Retry-After
arm at a concrete 429 response, and the single request property for two
transports agreeing on their first outcome only. -/
theorem C3_amended_error_classification_witness :
    handle_response_errors response429Good
        = Except.error (SallaError.rateLimitError "Too many requests" (some 429) (some 7))
    ∧ make_request "products" 30 transportA = make_request "products" 30 transportB := by
  constructor
  · have h := ((C3_amended_error_classification.1 response429Good).2.2.2.2.2.1) "7" 7
      rfl rfl (by decide) (by rfl)
    simpa [response_error_message, responseErrorData, response429Good] using h
  · exact C3_amended_error_classification.2.1 "products" 30 transportA transportB rfl

/-- An ERPNext Item document: the per field sync enable flags and the
per field sync status custom fields touched by the product sync. -/
structure Item where
  item_code : String
  item_name : String
  custom_sync_with_salla : Bool
  custom_sync_name : Bool
  custom_sync_description : Bool
  custom_sync_price : Bool
  custom_sync_sku : Bool
  custom_sync_categories : Bool
  custom_sync_images : Bool
  custom_sync_stock : Bool
  custom_name_sync_status : String
  custom_description_sync_status : String
  custom_price_sync_status : String
  custom_sku_sync_status : String
  custom_categories_sync_status : String
deriving DecidableEq, Repr

/-- The Salla Product document that mirrors an Item: the entity level
sync_status and the per field statuses. -/
structure SallaProductDoc where
  item_code : String
  salla_product_id : String
  sync_status : String
  item_name_sync_status : String
  description_sync_status : String
  price_sync_status : String
  sku_sync_status : String
  categories_sync_status : String
deriving DecidableEq, Repr

/-- Shallow embedding of
ProductSyncManager.mark_sync_status_as_not_synced_before_start: when the
item is marked for Salla sync it sets the Salla Product entity status to
Pending and every per field status, on both documents, to Not Synced;
otherwise it resets only the statuses of the individually enabled
fields. Returns the updated Salla Product document and Item. -/
def mark_sync_status_as_not_synced_before_start (item : Item) (sp : SallaProductDoc) :
    SallaProductDoc × Item :=
  if item.custom_sync_with_salla then
    ({ sp with
        sync_status := "Pending",
        item_name_sync_status := "Not Synced",
        description_sync_status := "Not Synced",
        price_sync_status := "Not Synced",
        sku_sync_status := "Not Synced",
        categories_sync_status := "Not Synced" },
     { item with
        custom_name_sync_status := "Not Synced",
        custom_description_sync_status := "Not Synced",
        custom_price_sync_status := "Not Synced",
        custom_sku_sync_status := "Not Synced",
        custom_categories_sync_status := "Not Synced" })
  else
    let sp := if item.custom_sync_name then
        { sp with item_name_sync_status := "Not Synced" } else sp
    let it := if item.custom_sync_name then
        { item with custom_name_sync_status := "Not Synced" } else item
    let sp := if item.custom_sync_description then
        { sp with description_sync_status := "Not Synced" } else sp
    let it := if item.custom_sync_description then
        { it with custom_description_sync_status := "Not Synced" } else it
    let sp := if item.custom_sync_price then
        { sp with price_sync_status := "Not Synced" } else sp
    let it := if item.custom_sync_price then
        { it with custom_price_sync_status := "Not Synced" } else it
    let sp := if item.custom_sync_sku then
        { sp with sku_sync_status := "Not Synced" } else sp
    let it := if item.custom_sync_sku then
        { it with custom_sku_sync_status := "Not Synced" } else it
    let sp := if item.custom_sync_categories then
        { sp with categories_sync_status := "Not Synced" } else sp
    let it := if item.custom_sync_categories then
        { it with custom_categories_sync_status := "Not Synced" } else it
    (sp, it)

/-- Shallow embedding of ProductSyncManager.mark_sync_status_after_finish:
sets Synced or Failed to Sync on exactly the enabled fields among name,
description, price and categories; the SKU branch is commented out in
the source, so the SKU statuses are never touched here. -/
def mark_sync_status_after_finish (item : Item) (sp : SallaProductDoc) (success : Bool) :
    SallaProductDoc × Item :=
  let status := if success then "Synced" else "Failed to Sync"
  let sp := if item.custom_sync_name then
      { sp with item_name_sync_status := status } else sp
  let it := if item.custom_sync_name then
      { item with custom_name_sync_status := status } else item
  let sp := if item.custom_sync_description then
      { sp with description_sync_status := status } else sp
  let it := if item.custom_sync_description then
      { it with custom_description_sync_status := status } else it
  let sp := if item.custom_sync_price then
      { sp with price_sync_status := status } else sp
  let it := if item.custom_sync_price then
      { it with custom_price_sync_status := status } else it
  let sp := if item.custom_sync_categories then
      { sp with categories_sync_status := status } else sp
  let it := if item.custom_sync_categories then
      { it with custom_categories_sync_status := status } else it
  (sp, it)

/-- A concrete item with every sync flag enabled and all statuses
previously Synced. -/
def exampleItem : Item :=
  { item_code := "ITM-1", item_name := "Widget",
    custom_sync_with_salla := true, custom_sync_name := true,
    custom_sync_description := true, custom_sync_price := true,
    custom_sync_sku := true, custom_sync_categories := true,
    custom_sync_images := true, custom_sync_stock := true,
    custom_name_sync_status := "Synced", custom_description_sync_status := "Synced",
    custom_price_sync_status := "Synced", custom_sku_sync_status := "Synced",
    custom_categories_sync_status := "Synced" }

/-- The Salla Product document linked to the concrete item. -/
def exampleSallaProduct : SallaProductDoc :=
  { item_code := "ITM-1", salla_product_id := "991", sync_status := "Synced",
    item_name_sync_status := "Synced", description_sync_status := "Synced",
    price_sync_status := "Synced", sku_sync_status := "Synced",
    categories_sync_status := "Synced" }

/-- C2 counterexample: the pre call marking does not set any per field
status to Pending: for a sync enabled item it sets the field statuses to
Not Synced (Pending appears only on the entity level sync_status). -/
theorem C2_fields_marked_not_synced_not_pending :
    (mark_sync_status_as_not_synced_before_start exampleItem exampleSallaProduct).1.item_name_sync_status
        = "Not Synced"
    ∧ (mark_sync_status_as_not_synced_before_start exampleItem exampleSallaProduct).1.item_name_sync_status
        ≠ "Pending"
    ∧ (mark_sync_status_as_not_synced_before_start exampleItem exampleSallaProduct).2.custom_name_sync_status
        ≠ "Pending"
    ∧ (mark_sync_status_as_not_synced_before_start exampleItem exampleSallaProduct).1.sync_status
        = "Pending" := by
  refine ⟨rfl, by decide, by decide, rfl⟩

/-- C2 amended: before the remote write the marking sets the entity
level sync_status to Pending and every per field status, on both the
Salla Product document and the Item, to Not Synced (not Pending); after
the call the marking sets Synced on success and Failed to Sync on
failure on exactly the enabled fields among name, description, price
and categories, leaves disabled fields unchanged, and never touches the
SKU statuses. -/
theorem C2_amended_sync_status_marking (item : Item) (sp : SallaProductDoc) (success : Bool)
    (hw : item.custom_sync_with_salla = true) :
    ((mark_sync_status_as_not_synced_before_start item sp).1.sync_status = "Pending"
      ∧ (mark_sync_status_as_not_synced_before_start item sp).1.item_name_sync_status = "Not Synced"
      ∧ (mark_sync_status_as_not_synced_before_start item sp).1.description_sync_status = "Not Synced"
      ∧ (mark_sync_status_as_not_synced_before_start item sp).1.price_sync_status = "Not Synced"
      ∧ (mark_sync_status_as_not_synced_before_start item sp).1.sku_sync_status = "Not Synced"
      ∧ (mark_sync_status_as_not_synced_before_start item sp).1.categories_sync_status = "Not Synced"
      ∧ (mark_sync_status_as_not_synced_before_start item sp).2.custom_name_sync_status = "Not Synced"
      ∧ (mark_sync_status_as_not_synced_before_start item sp).2.custom_description_sync_status = "Not Synced"
      ∧ (mark_sync_status_as_not_synced_before_start item sp).2.custom_price_sync_status = "Not Synced"
      ∧ (mark_sync_status_as_not_synced_before_start item sp).2.custom_sku_sync_status = "Not Synced"
      ∧ (mark_sync_status_as_not_synced_before_start item sp).2.custom_categories_sync_status = "Not Synced")
    ∧ ((mark_sync_status_after_finish item sp success).1.item_name_sync_status
          = (if item.custom_sync_name then (if success then "Synced" else "Failed to Sync")
             else sp.item_name_sync_status)
      ∧ (mark_sync_status_after_finish item sp success).1.description_sync_status
          = (if item.custom_sync_description then (if success then "Synced" else "Failed to Sync")
             else sp.description_sync_status)
      ∧ (mark_sync_status_after_finish item sp success).1.price_sync_status
          = (if item.custom_sync_price then (if success then "Synced" else "Failed to Sync")
             else sp.price_sync_status)
      ∧ (mark_sync_status_after_finish item sp success).1.categories_sync_status
          = (if item.custom_sync_categories then (if success then "Synced" else "Failed to Sync")
             else sp.categories_sync_status)
      ∧ (mark_sync_status_after_finish item sp success).1.sku_sync_status = sp.sku_sync_status
      ∧ (mark_sync_status_after_finish item sp success).2.custom_sku_sync_status
          = item.custom_sku_sync_status
      ∧ (mark_sync_status_after_finish item sp success).1.sync_status = sp.sync_status) := by
  constructor
  · simp [mark_sync_status_as_not_synced_before_start, hw]
  · cases hn : item.custom_sync_name <;>
      cases hd : item.custom_sync_description <;>
        cases hp : item.custom_sync_price <;>
          cases hc : item.custom_sync_categories <;>
            simp [mark_sync_status_after_finish, hn, hd, hp, hc]

/-- Closed witness for the amended C2 theorem at the concrete item. -/
theorem C2_amended_sync_status_marking_witness :
    (mark_sync_status_as_not_synced_before_start exampleItem exampleSallaProduct).1.sync_status
        = "Pending"
    ∧ (mark_sync_status_after_finish exampleItem exampleSallaProduct false).1.price_sync_status
        = "Failed to Sync"
    ∧ (mark_sync_status_after_finish exampleItem exampleSallaProduct false).1.sku_sync_status
        = "Synced" := by
  have h := C2_amended_sync_status_marking exampleItem exampleSallaProduct false (by decide)
  refine ⟨h.1.1, ?_, ?_⟩
  · have hp := h.2.2.2.1
    simpa [exampleItem] using hp
  · have hs := h.2.2.2.2.2.1
    simpa [exampleSallaProduct] using hs

/-- The OAuth credential state a SallaAuth instance loads from Salla
Settings: cached access token, refresh token and expiry instant, each
possibly absent. Times are integer seconds. -/
structure AuthState where
  access_token : Option String
  refresh_token : Option String
  token_expires_at : Option Int
deriving DecidableEq, Repr

/-- Shallow embedding of SallaAuth.is_token_expired: true when no
expiry is recorded, otherwise when now has reached the expiry minus the
60 second buffer. -/
def is_token_expired (now : Int) (st : AuthState) : Bool :=
  match st.token_expires_at with
  | none => true
  | some e => decide (now ≥ e - 60)

/-- The body of a successful token endpoint response. -/
structure TokenData where
  access_token : String
  refresh_token : String
  expires_in : Int
deriving DecidableEq, Repr

/-- Outcome of the token endpoint POST issued by a refresh. -/
inductive TokenEndpointOutcome where
  | ok (td : TokenData)
  | transportFailure (reason : String)
deriving DecidableEq, Repr

/-- Shallow embedding of SallaAuth._save_tokens: replaces the whole
credential atomically, with the expiry advanced together with the new
access token. -/
def save_tokens (now : Int) (td : TokenData) : AuthState :=
  { access_token := some td.access_token,
    refresh_token := some td.refresh_token,
    token_expires_at := some (now + td.expires_in) }

/-- Shallow embedding of SallaAuth.refresh_access_token: fails with
AuthenticationError when no refresh token is cached, performs the token
endpoint POST otherwise, saving the new credential on success and
failing with AuthenticationError on transport failure. -/
def refresh_access_token (now : Int) (endpoint : TokenEndpointOutcome) (st : AuthState) :
    Except SallaError (AuthState × TokenData) :=
  if st.refresh_token = none ∨ st.refresh_token = some "" then
    Except.error (SallaError.authenticationError
      "No refresh token available. Please re-authenticate." none)
  else
    match endpoint with
    | TokenEndpointOutcome.ok td => Except.ok (save_tokens now td, td)
    | TokenEndpointOutcome.transportFailure reason =>
        Except.error (SallaError.authenticationError
          ("Failed to refresh access token: " ++ reason) none)

/-- Shallow embedding of the SallaAuth.access_token property, the
getValidToken of the specification: refresh when expired, then return
the cached token. The result carries the updated state, the returned
token and the number of refresh POSTs issued by this call. -/
def access_token_property (now : Int) (endpoint : TokenEndpointOutcome) (st : AuthState) :
    Except SallaError (AuthState × Option String × Nat) :=
  if is_token_expired now st then
    match refresh_access_token now endpoint st with
    | Except.ok (st1, _) => Except.ok (st1, st1.access_token, 1)
    | Except.error e => Except.error e
  else Except.ok (st, st.access_token, 0)

/-- C8: is_token_expired is true exactly when now has reached expiry
minus the 60 second buffer or no expiry is recorded; an expired state
with a refresh token triggers exactly one refresh and returns the fresh
token from the refresh response, never the stale cached one; an expired
state without a refresh token fails with AuthenticationError; an
unexpired state returns the cached token with no refresh. -/
theorem C8_get_valid_token_refreshes_when_expired (now : Int) (st : AuthState)
    (td : TokenData) (endpoint : TokenEndpointOutcome) :
    (is_token_expired now st = true ↔
        (st.token_expires_at = none ∨ ∃ e, st.token_expires_at = some e ∧ now ≥ e - 60))
    ∧ (is_token_expired now st = true →
        ¬ (st.refresh_token = none ∨ st.refresh_token = some "") →
        access_token_property now (TokenEndpointOutcome.ok td) st
          = Except.ok (save_tokens now td, some td.access_token, 1))
    ∧ (is_token_expired now st = true → st.refresh_token = none →
        access_token_property now endpoint st
          = Except.error (SallaError.authenticationError
              "No refresh token available. Please re-authenticate." none))
    ∧ (is_token_expired now st = false →
        access_token_property now endpoint st = Except.ok (st, st.access_token, 0)) := by
  refine ⟨?_, ?_, ?_, ?_⟩
  · cases h : st.token_expires_at with
    | none => simp [is_token_expired, h]
    | some e => simp [is_token_expired, h]
  · intro hexp hrt
    simp [access_token_property, refresh_access_token, hexp, hrt, save_tokens]
  · intro hexp hrt
    simp [access_token_property, refresh_access_token, hexp, hrt]
  · intro hexp
    simp [access_token_property, hexp]

/-- A concrete credential that expired one second ago for now = 1000. -/
def expiredAuthState : AuthState :=
  { access_token := some "stale-token", refresh_token := some "refresh-1",
    token_expires_at := some 999 }

/-- A concrete token endpoint response body. -/
def freshTokenData : TokenData :=
  { access_token := "fresh-token", refresh_token := "refresh-2", expires_in := 3600 }

/-- Closed witness for the C8 theorem at the expired concrete state. -/
theorem C8_get_valid_token_refreshes_when_expired_witness :
    access_token_property 1000 (TokenEndpointOutcome.ok freshTokenData) expiredAuthState
        = Except.ok (save_tokens 1000 freshTokenData, some "fresh-token", 1) := by
  exact (C8_get_valid_token_refreshes_when_expired 1000 expiredAuthState freshTokenData
      (TokenEndpointOutcome.ok freshTokenData)).2.1 (by decide) (by decide)

/-- Progress of one worker in the concurrent token scenario: it has not
yet constructed its SallaAuth instance, or it has loaded the stored
credential into the instance, or it has finished its access_token call. -/
inductive CallerPhase where
  | notLoaded
  | loaded (localState : AuthState)
  | done
deriving DecidableEq, Repr

/-- The shared system in the concurrent token scenario: the persisted
credential store, the workers, and how many refresh POSTs were issued. -/
structure AuthSystem where
  store : AuthState
  callers : List CallerPhase
  refresh_posts : Nat
deriving DecidableEq, Repr

/-- One interleaving step of the concurrent scenario: scheduling caller
i either constructs its SallaAuth instance (loading the current store
into instance state, as _load_tokens does) or runs its access_token
call on its own loaded copy. There is no lock anywhere in the source,
so a caller whose loaded copy is expired always issues its own refresh
POST and overwrites the store. -/
def auth_step (now : Int) (td : TokenData) (sys : AuthSystem) (i : Nat) : AuthSystem :=
  match sys.callers.get? i with
  | none => sys
  | some CallerPhase.notLoaded =>
      { sys with callers := sys.callers.set i (CallerPhase.loaded sys.store) }
  | some (CallerPhase.loaded lst) =>
    if is_token_expired now lst then
      match refresh_access_token now (TokenEndpointOutcome.ok td) lst with
      | Except.ok (st1, _) =>
          { store := st1, callers := sys.callers.set i CallerPhase.done,
            refresh_posts := sys.refresh_posts + 1 }
      | Except.error _ =>
          { sys with callers := sys.callers.set i CallerPhase.done }
    else { sys with callers := sys.callers.set i CallerPhase.done }
  | some CallerPhase.done => sys

/-- Runs a schedule, an interleaving of caller steps, from a system. -/
def auth_run (now : Int) (td : TokenData) (sys : AuthSystem) (schedule : List Nat) : AuthSystem :=
  schedule.foldl (auth_step now td) sys

/-- Ten callers, none having constructed its SallaAuth instance yet,
over the expired store. -/
def tenCallerSystem : AuthSystem :=
  { store := expiredAuthState, callers := List.replicate 10 CallerPhase.notLoaded,
    refresh_posts := 0 }

/-- A schedule in which all ten callers construct and load before any
of them runs its access_token call: a legal interleaving, since the
source takes no lock. -/
def allLoadFirstSchedule : List Nat :=
  [0, 1, 2, 3, 4, 5, 6, 7, 8, 9, 0, 1, 2, 3, 4, 5, 6, 7, 8, 9]

/-- A schedule in which each caller finishes before the next starts. -/
def sequentialSchedule : List Nat :=
  [0, 0, 1, 1, 2, 2, 3, 3, 4, 4, 5, 5, 6, 6, 7, 7, 8, 8, 9, 9]

/-- C9 counterexample: with the stored credential expired one second
before now and ten concurrent callers that all load the credential
before any refresh completes, the code issues ten refresh POSTs, not
exactly one: no single flight serialization exists in the source. -/
theorem C9_ten_concurrent_callers_ten_refreshes :
    (auth_run 1000 freshTokenData tenCallerSystem allLoadFirstSchedule).refresh_posts = 10
    ∧ (auth_run 1000 freshTokenData tenCallerSystem allLoadFirstSchedule).refresh_posts ≠ 1 := by
  refine ⟨by rfl, by decide⟩

/-- C9 amended: token refresh is not serialized; every caller that
observes an expired credential issues its own refresh POST. With
expires_at one second in the past and ten callers, the interleaving in
which all callers load before any refresh completes issues ten refresh
POSTs, while fully sequential execution issues exactly one, because
later callers load the already refreshed credential. -/
theorem C9_amended_refresh_not_single_flight :
    (auth_run 1000 freshTokenData tenCallerSystem allLoadFirstSchedule).refresh_posts = 10
    ∧ (auth_run 1000 freshTokenData tenCallerSystem sequentialSchedule).refresh_posts = 1 := by
  refine ⟨by rfl, by rfl⟩

/-- Shallow embedding of get_item_stock from core/utils/helpers.py: the
sellable quantity of an item is the sum of the bin quantities over the
default and secondary warehouses from Salla Settings, skipping any that
is unset or falsy. bin_qty stands for get_bin(item, warehouse).actual_qty. -/
def get_item_stock (default_wh secondary_wh : Option String)
    (bin_qty : String → String → Int) (item_code : String) : Int :=
  let q1 := match default_wh with
    | some wh => if wh = "" then 0 else bin_qty item_code wh
    | none => 0
  let q2 := match secondary_wh with
    | some wh => if wh = "" then 0 else bin_qty item_code wh
    | none => 0
  q1 + q2

/-- Shallow embedding of the warehouse choice in
OrderSyncManager._build_order_items, after the two per warehouse stock
reads: first branch assigns the default warehouse whenever the combined
stock covers the quantity, then the default if it alone covers it, then
the secondary if it alone covers it, else the default as backorder. -/
def select_order_item_warehouse (default_wh secondary_wh : Option String)
    (stock_in_default stock_in_secondary qty : Int) : Option String :=
  if stock_in_default + stock_in_secondary ≥ qty then default_wh
  else if stock_in_default ≥ qty then default_wh
  else if stock_in_secondary ≥ qty then secondary_wh
  else default_wh

/-- The full per item assignment of _build_order_items: reads each
warehouse stock (zero when the warehouse is falsy) and selects. -/
def build_order_item_warehouse (default_wh secondary_wh : Option String)
    (bin_qty : String → String → Int) (item_code : String) (qty : Int) : Option String :=
  let stock_in_default := match default_wh with
    | some wh => if wh = "" then 0 else bin_qty item_code wh
    | none => 0
  let stock_in_secondary := match secondary_wh with
    | some wh => if wh = "" then 0 else bin_qty item_code wh
    | none => 0
  select_order_item_warehouse default_wh secondary_wh stock_in_default stock_in_secondary qty

/-- Concrete bin quantities: 3 in the primary warehouse, 5 in the
secondary one. -/
def exampleBinQty : String → String → Int := fun _ wh =>
  if wh = "WH-Primary" then 3 else 5

/-- C5 counterexample: with primary stock 3, secondary stock 5 and
requested quantity 4, the first branch fires because the combined
stock 8 covers 4, so the code assigns the primary warehouse; the claim
says the secondary warehouse is assigned. -/
theorem C5_example_three_five_four_assigns_primary :
    build_order_item_warehouse (some "WH-Primary") (some "WH-Secondary")
        exampleBinQty "ITM-1" 4 = some "WH-Primary"
    ∧ build_order_item_warehouse (some "WH-Primary") (some "WH-Secondary")
        exampleBinQty "ITM-1" 4 ≠ some "WH-Secondary" := by
  refine ⟨by rfl, by decide⟩

/-- C5 amended: totalAvailable is the sum of the primary and secondary
warehouse quantities; the assignment rule is exactly as claimed
(combined or primary stock sufficient gives primary, otherwise
sufficient secondary stock gives secondary, otherwise primary as
backorder); the corrected examples follow the rule: primary 3,
secondary 5, quantity 4 assigns primary since 3 + 5 covers 4, primary
10, secondary 0, quantity 4 assigns primary, and primary 1, secondary
1, quantity 5 assigns primary as backorder. Only with a combined
shortfall and enough secondary stock, which requires negative primary
stock, is the secondary warehouse assigned. -/
theorem C5_amended_stock_allocation (p s : String) (bin_qty : String → String → Int)
    (item : String) (sd ss q : Int) (hp : p ≠ "") (hs : s ≠ "") :
    (get_item_stock (some p) (some s) bin_qty item = bin_qty item p + bin_qty item s)
    ∧ (get_item_stock (some p) none bin_qty item = bin_qty item p)
    ∧ (sd + ss ≥ q → select_order_item_warehouse (some p) (some s) sd ss q = some p)
    ∧ (sd + ss < q → sd ≥ q → select_order_item_warehouse (some p) (some s) sd ss q = some p)
    ∧ (sd + ss < q → sd < q → ss ≥ q →
        select_order_item_warehouse (some p) (some s) sd ss q = some s)
    ∧ (sd + ss < q → sd < q → ss < q →
        select_order_item_warehouse (some p) (some s) sd ss q = some p)
    ∧ (select_order_item_warehouse (some p) (some s) 3 5 4 = some p)
    ∧ (select_order_item_warehouse (some p) (some s) 10 0 4 = some p)
    ∧ (select_order_item_warehouse (some p) (some s) 1 1 5 = some p) := by
  refine ⟨?_, ?_, ?_, ?_, ?_, ?_, ?_, ?_, ?_⟩
  · simp [get_item_stock, hp, hs]
  · simp [get_item_stock, hp]
  · intro h1
    simp [select_order_item_warehouse, h1]
  · intro h1 h2
    simp [select_order_item_warehouse, h1, h2, not_le.mpr h1]
  · intro h1 h2 h3
    simp [select_order_item_warehouse, not_le.mpr h1, not_le.mpr h2, h3]
  · intro h1 h2 h3
    simp [select_order_item_warehouse, not_le.mpr h1, not_le.mpr h2, not_le.mpr h3]
  · simp [select_order_item_warehouse]
  · simp [select_order_item_warehouse]
  · simp [select_order_item_warehouse]

/-- Closed witness for the amended C5 theorem at concrete warehouses
and stocks. -/
theorem C5_amended_stock_allocation_witness :
    get_item_stock (some "WH-Primary") (some "WH-Secondary") exampleBinQty "ITM-1" = 8
    ∧ select_order_item_warehouse (some "WH-Primary") (some "WH-Secondary") 3 5 4
        = some "WH-Primary" := by
  have h := C5_amended_stock_allocation "WH-Primary" "WH-Secondary" exampleBinQty
    "ITM-1" 3 5 4 (by decide) (by decide)
  refine ⟨?_, h.2.2.2.2.2.2.1⟩
  have h1 := h.1
  simpa [exampleBinQty] using h1

/-- One Salla Product link row: the document name, the external product
id, the linked local item code (empty string models an unset link, the
falsy value the source tests), and the entity sync status. -/
structure SallaProductRow where
  docname : String
  salla_product_id : String
  item_code : String
  sync_status : String
deriving DecidableEq, Repr

/-- The local store the product pull touches: existing Item codes and
the Salla Product link rows. -/
structure ProductStore where
  items : List String
  salla_products : List SallaProductRow
deriving DecidableEq, Repr

/-- A remote product record as the pull reads it: the external id after
str() with empty default, the sku and the display name. -/
structure SallaProductData where
  id : Option String
  sku : String
  pname : String
deriving DecidableEq, Repr

/-- Outcome dictionary of a product pull. -/
inductive SyncOutcome where
  | success (operation : String) (local_key : String) (external_id : String)
  | error (message : String)
deriving DecidableEq, Repr

/-- The item code the ProductMapper derives: the sku, or the SALLA-id
fallback when the sku is falsy (Python or). -/
def mapped_item_code (ar : SallaProductData) : String :=
  if ar.sku = "" then
    "SALLA-" ++ (match ar.id with | some s => s | none => "None")
  else ar.sku

/-- The mapped item code is never the empty string. -/
theorem mapped_item_code_ne_empty (ar : SallaProductData) : mapped_item_code ar ≠ "" := by
  unfold mapped_item_code
  by_cases h : ar.sku = ""
  · simp only [h, if_true]
    intro hc
    have hlen := congrArg String.length hc
    simp [String.length_append] at hlen
    exact (by decide : "SALLA-".length ≠ 0) hlen.1
  · rw [if_neg h]
    exact h

/-- The item list after the pull: unchanged when an Item with the sku
exists, extended by the new Item otherwise. -/
def pull_items (st : ProductStore) (sku : String) : List String :=
  if st.items.contains sku then st.items else st.items ++ [sku]

/-- The operation label of the pull: Linked joins an existing Item,
Created inserts a new one. -/
def pull_operation (st : ProductStore) (sku : String) : String :=
  if st.items.contains sku then "Linked" else "Created"

/-- The tail of ProductSyncManager.sync_from_salla once the short
circuit did not fire: map the record, link or create the Item, then
update the found Salla Product row or insert a new one, marked Synced. -/
def product_pull_upsert (st : ProductStore) (ar : SallaProductData) (pid : String)
    (existing : Option SallaProductRow) : ProductStore × SyncOutcome :=
  let sku := mapped_item_code ar
  match existing with
  | some row =>
    ({ items := pull_items st sku,
       salla_products := st.salla_products.map (fun q =>
         if q.docname == row.docname then
           { q with item_code := sku, sync_status := "Synced" } else q) },
     SyncOutcome.success (pull_operation st sku) sku pid)
  | none =>
    ({ items := pull_items st sku,
       salla_products := st.salla_products ++
         [{ docname := "SP-" ++ pid, salla_product_id := pid,
            item_code := sku, sync_status := "Synced" }] },
     SyncOutcome.success (pull_operation st sku) sku pid)

/-- Shallow embedding of ProductSyncManager.sync_from_salla: error on a
falsy external id; a Salla Product row already carrying an item code
short circuits with success and no mutation; otherwise the upsert runs. -/
def product_sync_from_salla (st : ProductStore) (ar en : SallaProductData) :
    ProductStore × SyncOutcome :=
  let pid := ar.id.getD ""
  if pid = "" then (st, SyncOutcome.error "No product ID in data")
  else
    match st.salla_products.find? (fun q => q.salla_product_id == pid) with
    | some row =>
      if row.item_code ≠ "" then (st, SyncOutcome.success "Existing" row.item_code pid)
      else product_pull_upsert st ar pid (some row)
    | none => product_pull_upsert st ar pid none

/-- A linked product record pull is a no mutation success. -/
theorem product_pull_linked_noop (st : ProductStore) (ar en : SallaProductData)
    (row : SallaProductRow)
    (hfind : st.salla_products.find? (fun q => q.salla_product_id == ar.id.getD "") = some row)
    (hic : row.item_code ≠ "") (hpid : ar.id.getD "" ≠ "") :
    product_sync_from_salla st ar en
      = (st, SyncOutcome.success "Existing" row.item_code (ar.id.getD "")) := by
  simp [product_sync_from_salla, hpid, hfind, hic]

/-- After any pull with a non falsy external id, the store holds a Salla
Product row for that id whose item code is set. -/
theorem product_pull_establishes_link (st : ProductStore) (ar en : SallaProductData)
    (hpid : ar.id.getD "" ≠ "") :
    ∃ row, (product_sync_from_salla st ar en).1.salla_products.find?
        (fun q => q.salla_product_id == ar.id.getD "") = some row ∧ row.item_code ≠ "" := by
  cases hfind : st.salla_products.find? (fun q => q.salla_product_id == ar.id.getD "") with
  | some row =>
    by_cases hic : row.item_code = ""
    · refine ⟨{ row with item_code := mapped_item_code ar, sync_status := "Synced" }, ?_, ?_⟩
      · have h1 : (product_sync_from_salla st ar en).1.salla_products
            = st.salla_products.map (fun q =>
                if q.docname == row.docname then
                  { q with item_code := mapped_item_code ar, sync_status := "Synced" } else q) := by
          simp [product_sync_from_salla, hpid, hfind, hic, product_pull_upsert]
        rw [h1, List.find?_map]
        have hcomp : ((fun q : SallaProductRow => q.salla_product_id == ar.id.getD "") ∘
            (fun q => if q.docname == row.docname then
              { q with item_code := mapped_item_code ar, sync_status := "Synced" } else q))
            = (fun q : SallaProductRow => q.salla_product_id == ar.id.getD "") := by
          funext q
          by_cases hq : q.docname == row.docname <;> simp [Function.comp, hq]
        rw [hcomp, hfind]
        simp
      · exact mapped_item_code_ne_empty ar
    · refine ⟨row, ?_, hic⟩
      rw [product_pull_linked_noop st ar en row hfind hic hpid]
      exact hfind
  | none =>
    refine ⟨{ docname := "SP-" ++ ar.id.getD "", salla_product_id := ar.id.getD "",
              item_code := mapped_item_code ar, sync_status := "Synced" }, ?_,
            mapped_item_code_ne_empty ar⟩
    have h1 : (product_sync_from_salla st ar en).1.salla_products
        = st.salla_products ++
          [{ docname := "SP-" ++ ar.id.getD "", salla_product_id := ar.id.getD "",
             item_code := mapped_item_code ar, sync_status := "Synced" }] := by
      simp [product_sync_from_salla, hpid, hfind, product_pull_upsert]
    rw [h1, List.find?_append, hfind]
    simp

/-- A pull inserts at most one Item. -/
theorem product_pull_items_growth (st : ProductStore) (ar en : SallaProductData) :
    (product_sync_from_salla st ar en).1.items.length ≤ st.items.length + 1 := by
  unfold product_sync_from_salla product_pull_upsert pull_items
  by_cases hpid : ar.id.getD "" = "" <;> simp [hpid]
  cases hfind : st.salla_products.find? (fun q => q.salla_product_id == ar.id.getD "") with
  | some row =>
    by_cases hic : row.item_code = "" <;>
      by_cases hc : mapped_item_code ar ∈ st.items <;>
        simp [hfind, hic, hc, List.length_append]
  | none =>
    by_cases hc : mapped_item_code ar ∈ st.items <;>
      simp [hfind, hc, List.length_append]

/-- One Salla Category row: document name, external id, per locale
names and the parent link. -/
structure SallaCategoryRow where
  docname : String
  salla_category_id : String
  category_name : String
  category_name_en : String
  parent_salla_category : Option String
deriving DecidableEq, Repr

/-- A remote category record as the pull reads it. -/
structure SallaCategoryData where
  id : Option String
  name : String
  name_en : String
  parent_id : Option String
deriving DecidableEq, Repr

/-- Outcome dictionary of a category pull. -/
inductive CatSyncOutcome where
  | success (category_name : String)
  | error (message : String)
deriving DecidableEq, Repr

/-- Parent resolution of the category pull: a truthy parent id is
looked up among the stored rows; absent, falsy or unresolved ids give
none. -/
def resolve_parent_docname (st : List SallaCategoryRow) (parent_id : Option String) :
    Option String :=
  match parent_id with
  | none => none
  | some p =>
    if p = "" then none
    else
      match st.find? (fun q => q.salla_category_id == p) with
      | some q => some q.docname
      | none => none

/-- The update branch of the category pull: overwrite both names on the
found row and the parent link when it resolves, keeping the stored
parent otherwise. -/
def category_update_row (st : List SallaCategoryRow) (d : SallaCategoryData)
    (row : SallaCategoryRow) : List SallaCategoryRow :=
  let parent := match resolve_parent_docname st d.parent_id with
    | some pd => some pd
    | none => row.parent_salla_category
  st.map (fun q =>
    if q.docname == row.docname then
      { q with category_name := d.name, category_name_en := d.name_en,
               parent_salla_category := parent }
    else q)

/-- Shallow embedding of CategorySyncManager.sync_from_salla: error on
a falsy id; update the existing row in place when the id is already
known, insert a new row otherwise; both variants return success with
the document name. -/
def category_sync_from_salla (st : List SallaCategoryRow) (d : SallaCategoryData) :
    List SallaCategoryRow × CatSyncOutcome :=
  let cid := d.id.getD ""
  if cid = "" then (st, CatSyncOutcome.error "No category ID in data")
  else
    match st.find? (fun q => q.salla_category_id == cid) with
    | some row =>
        (category_update_row st d row, CatSyncOutcome.success row.docname)
    | none =>
        (st ++ [{ docname := "SC-" ++ cid, salla_category_id := cid,
                  category_name := d.name, category_name_en := d.name_en,
                  parent_salla_category := resolve_parent_docname st d.parent_id }],
         CatSyncOutcome.success ("SC-" ++ cid))

/-- Updating a row keeps the row count. -/
theorem category_update_row_length (st : List SallaCategoryRow) (d : SallaCategoryData)
    (row : SallaCategoryRow) : (category_update_row st d row).length = st.length := by
  simp [category_update_row]

/-- After a pull with a truthy id the store has a row for that id. -/
theorem category_pull_finds_after (st : List SallaCategoryRow) (d : SallaCategoryData)
    (hcid : d.id.getD "" ≠ "") :
    ∃ row, (category_sync_from_salla st d).1.find?
        (fun q => q.salla_category_id == d.id.getD "") = some row := by
  cases hfind : st.find? (fun q => q.salla_category_id == d.id.getD "") with
  | some row =>
    have h1 : (category_sync_from_salla st d).1 = category_update_row st d row := by
      simp [category_sync_from_salla, hcid, hfind]
    rw [h1]
    unfold category_update_row
    rw [List.find?_map]
    have hcomp : ((fun q : SallaCategoryRow => q.salla_category_id == d.id.getD "") ∘
        (fun q => if q.docname == row.docname then
          { q with category_name := d.name, category_name_en := d.name_en,
                   parent_salla_category :=
                     match resolve_parent_docname st d.parent_id with
                     | some pd => some pd
                     | none => row.parent_salla_category }
        else q))
        = (fun q : SallaCategoryRow => q.salla_category_id == d.id.getD "") := by
      funext q
      by_cases hq : q.docname == row.docname <;> simp [Function.comp, hq]
    rw [hcomp, hfind]
    simp
  | none =>
    have h1 : (category_sync_from_salla st d).1
        = st ++ [{ docname := "SC-" ++ d.id.getD "", salla_category_id := d.id.getD "",
                   category_name := d.name, category_name_en := d.name_en,
                   parent_salla_category := resolve_parent_docname st d.parent_id }] := by
      simp [category_sync_from_salla, hcid, hfind]
    rw [h1, List.find?_append, hfind]
    simp

/-- An update pull keeps the row count. -/
theorem category_pull_update_keeps_length (st1 : List SallaCategoryRow)
    (d : SallaCategoryData) (row2 : SallaCategoryRow) (hcid : d.id.getD "" ≠ "")
    (hfind2 : st1.find? (fun q => q.salla_category_id == d.id.getD "") = some row2) :
    (category_sync_from_salla st1 d).1.length = st1.length := by
  simp [category_sync_from_salla, hcid, hfind2, category_update_row_length]

/-- A category pull inserts at most one row, and a second pull of the
same record inserts none. -/
theorem category_pull_growth (st : List SallaCategoryRow) (d : SallaCategoryData) :
    (category_sync_from_salla st d).1.length ≤ st.length + 1
    ∧ (category_sync_from_salla (category_sync_from_salla st d).1 d).1.length
        = (category_sync_from_salla st d).1.length := by
  by_cases hcid : d.id.getD "" = ""
  · simp [category_sync_from_salla, hcid]
  · constructor
    · cases hfind : st.find? (fun q => q.salla_category_id == d.id.getD "") with
      | some row =>
        simp [category_sync_from_salla, hcid, hfind, category_update_row_length]
      | none =>
        simp [category_sync_from_salla, hcid, hfind, List.length_append]
    · obtain ⟨row2, hfind2⟩ := category_pull_finds_after st d hcid
      exact category_pull_update_keeps_length _ d row2 hcid hfind2

/-- A stored category linked to external id 5 with the old name. -/
def exampleLinkedCategory : SallaCategoryRow :=
  { docname := "SC-5", salla_category_id := "5", category_name := "Old",
    category_name_en := "Old", parent_salla_category := none }

/-- The same remote category pulled again with a new name. -/
def exampleCategoryData : SallaCategoryData :=
  { id := some "5", name := "New", name_en := "NewEn", parent_id := none }

/-- C4 counterexample: pulling a remote category whose external id is
already linked returns Success but mutates the local row in place: the
stored names are overwritten, so the pull of an already linked record
is not mutation free for every entity kind. -/
theorem C4_linked_category_pull_mutates :
    (category_sync_from_salla [exampleLinkedCategory] exampleCategoryData).2
        = CatSyncOutcome.success "SC-5"
    ∧ (category_sync_from_salla [exampleLinkedCategory] exampleCategoryData).1
        ≠ [exampleLinkedCategory]
    ∧ (category_sync_from_salla [exampleLinkedCategory] exampleCategoryData).1
        = [{ exampleLinkedCategory with category_name := "New", category_name_en := "NewEn" }] := by
  refine ⟨by rfl, by decide, by rfl⟩

/-- C4 amended: for products the claim holds exactly: pulling a record
whose external id is already linked returns Success and performs no
mutation, any pull inserts at most one Item and a second pull of the
same record is a no op Success. For categories a pull of an already
linked record returns Success and inserts nothing, but it updates the
linked row in place (names and parent); at most one insert over
repeated pulls still holds. -/
theorem C4_amended_pull_idempotence :
    (∀ (st : ProductStore) (ar en : SallaProductData) (row : SallaProductRow),
      st.salla_products.find? (fun q => q.salla_product_id == ar.id.getD "") = some row →
      row.item_code ≠ "" → ar.id.getD "" ≠ "" →
      product_sync_from_salla st ar en
        = (st, SyncOutcome.success "Existing" row.item_code (ar.id.getD "")))
    ∧ (∀ (st : ProductStore) (ar en : SallaProductData), ar.id.getD "" ≠ "" →
      (product_sync_from_salla (product_sync_from_salla st ar en).1 ar en).1
          = (product_sync_from_salla st ar en).1
      ∧ (∃ ic, (product_sync_from_salla (product_sync_from_salla st ar en).1 ar en).2
          = SyncOutcome.success "Existing" ic (ar.id.getD ""))
      ∧ (product_sync_from_salla st ar en).1.items.length ≤ st.items.length + 1)
    ∧ (∀ (st : List SallaCategoryRow) (d : SallaCategoryData),
      (category_sync_from_salla st d).1.length ≤ st.length + 1
      ∧ (category_sync_from_salla (category_sync_from_salla st d).1 d).1.length
          = (category_sync_from_salla st d).1.length) := by
  refine ⟨product_pull_linked_noop, ?_, category_pull_growth⟩
  intro st ar en hpid
  obtain ⟨row, hfind1, hic1⟩ := product_pull_establishes_link st ar en hpid
  have h2 := product_pull_linked_noop (product_sync_from_salla st ar en).1 ar en
    row hfind1 hic1 hpid
  refine ⟨?_, ⟨row.item_code, ?_⟩, product_pull_items_growth st ar en⟩
  · rw [h2]
  · rw [h2]

/-- A product store with one unlinked Salla Product row for id 7. -/
def exampleUnlinkedStore : ProductStore :=
  { items := [],
    salla_products := [{ docname := "SP-7", salla_product_id := "7",
                         item_code := "", sync_status := "Pending" }] }

/-- The remote product record with id 7 and sku SKU-1. -/
def exampleProductData : SallaProductData :=
  { id := some "7", sku := "SKU-1", pname := "Widget" }

/-- Closed witness for the amended C4 theorem: a linked store pull is a
no op success, and the second of two pulls from the unlinked store
leaves the store fixed with an Existing success. -/
theorem C4_amended_pull_idempotence_witness :
    product_sync_from_salla
        { items := ["SKU-1"],
          salla_products := [{ docname := "SP-7", salla_product_id := "7",
                               item_code := "SKU-1", sync_status := "Synced" }] }
        exampleProductData exampleProductData
      = ({ items := ["SKU-1"],
           salla_products := [{ docname := "SP-7", salla_product_id := "7",
                                item_code := "SKU-1", sync_status := "Synced" }] },
         SyncOutcome.success "Existing" "SKU-1" "7")
    ∧ (product_sync_from_salla
          (product_sync_from_salla exampleUnlinkedStore exampleProductData exampleProductData).1
          exampleProductData exampleProductData).1
        = (product_sync_from_salla exampleUnlinkedStore exampleProductData exampleProductData).1
    ∧ (category_sync_from_salla [exampleLinkedCategory] exampleCategoryData).1.length
        ≤ ([exampleLinkedCategory] : List SallaCategoryRow).length + 1 := by
  refine ⟨?_, ?_, ?_⟩
  · exact C4_amended_pull_idempotence.1
      { items := ["SKU-1"],
        salla_products := [{ docname := "SP-7", salla_product_id := "7",
                             item_code := "SKU-1", sync_status := "Synced" }] }
      exampleProductData exampleProductData
      { docname := "SP-7", salla_product_id := "7",
        item_code := "SKU-1", sync_status := "Synced" }
      (by rfl) (by decide) (by decide)
  · exact (C4_amended_pull_idempotence.2.1 exampleUnlinkedStore
      exampleProductData exampleProductData (by decide)).1
  · exact (C4_amended_pull_idempotence.2.2 [exampleLinkedCategory] exampleCategoryData).1

/-- The response of the remote get product call. -/
structure GetProductResponse where
  success : Bool
  message : Option String
  data : SallaProductData
deriving DecidableEq, Repr

/-- The str() rendering of the Python exceptions the import path meets. -/
def str_of_pyerr : PyErr → String
  | PyErr.typeError =>
      "ProductSyncManager.sync_from_salla() missing 1 required positional argument: product_data_en"
  | PyErr.valueError => "invalid literal for int() with base 10"
  | PyErr.validationError m => m
  | PyErr.authenticationError m => m
  | PyErr.handlerError _ m => m

/-- A Python call of ProductSyncManager.sync_from_salla through a
positional argument list: the method demands exactly the two records
product_data_ar and product_data_en, so any other arity raises
TypeError before the body runs. -/
def call_product_sync_from_salla (st : ProductStore) (args : List SallaProductData) :
    Except PyErr (ProductStore × SyncOutcome) :=
  match args with
  | [ar, en] => Except.ok (product_sync_from_salla st ar en)
  | _ => Except.error PyErr.typeError

/-- Shallow embedding of ProductSyncManager.import_single_product: on a
successful get product response it invokes sync_from_salla with the one
data argument only, and the surrounding try/except turns the raised
exception into an error result. -/
def import_single_product (st : ProductStore) (resp : GetProductResponse) :
    ProductStore × SyncOutcome :=
  if resp.success then
    match call_product_sync_from_salla st [resp.data] with
    | Except.ok res => res
    | Except.error e => (st, SyncOutcome.error (str_of_pyerr e))
  else
    (st, SyncOutcome.error (resp.message.getD "Product not found"))

/-- C10: whenever the remote get product call succeeds, the single
argument call of sync_from_salla raises TypeError, the except clause
catches it, and the function returns an error result with the store
untouched: no Item is ever created or linked. The store is also
untouched when the get fails. -/
theorem C10_import_single_product_never_imports (st : ProductStore)
    (resp : GetProductResponse) (h : resp.success = true) :
    import_single_product st resp
        = (st, SyncOutcome.error (str_of_pyerr PyErr.typeError))
    ∧ ∀ (st2 : ProductStore) (resp2 : GetProductResponse),
        (import_single_product st2 resp2).1 = st2 := by
  constructor
  · simp [import_single_product, h, call_product_sync_from_salla]
  · intro st2 resp2
    by_cases h2 : resp2.success = true <;>
      simp [import_single_product, h2, call_product_sync_from_salla]

/-- Closed witness for the C10 theorem at a successful get response. -/
theorem C10_import_single_product_never_imports_witness :
    import_single_product exampleUnlinkedStore
        { success := true, message := none, data := exampleProductData }
      = (exampleUnlinkedStore, SyncOutcome.error (str_of_pyerr PyErr.typeError)) := by
  exact (C10_import_single_product_never_imports exampleUnlinkedStore
    { success := true, message := none, data := exampleProductData } rfl).1

/-- The keys of an image manifest: the local image references it maps. -/
def manifest_keys (manifest : List (String × Nat)) : Finset String :=
  (manifest.map Prod.fst).toFinset

/-- The image diff result: added and unchanged hold local references,
removed holds the remote image ids needed for deletion, mirroring the
string versus numeric id types of the source data. -/
structure ImageVariance where
  added : Finset String
  removed : List Nat
  unchanged : Finset String

/-- Shallow embedding of get_image_variance from image_sync.py: added
is the current reference set minus the manifest keys, removed is the
list of manifest values whose key left the current set, unchanged is
the intersection. The Python sets become finite sets. -/
def get_image_variance (current : List String) (manifest : List (String × Nat)) :
    ImageVariance :=
  let cur := current.toFinset
  { added := cur \ manifest_keys manifest,
    removed := (manifest.filter (fun p => decide (p.1 ∉ cur))).map Prod.snd,
    unchanged := cur ∩ manifest_keys manifest }

/-- The added references as the list the upload loop iterates: the
distinct current references outside the manifest keys. -/
def added_refs (current : List String) (manifest : List (String × Nat)) : List String :=
  current.dedup.filter (fun u => decide (u ∉ manifest_keys manifest))

/-- The unchanged references as the list the carry forward loop
iterates: the distinct current references among the manifest keys. -/
def unchanged_refs (current : List String) (manifest : List (String × Nat)) : List String :=
  current.dedup.filter (fun u => decide (u ∈ manifest_keys manifest))

/-- The manifest written at the end of sync_product_images: each added
reference whose binary upload succeeded maps to the new remote id, and
each unchanged reference carries its stored remote id forward. -/
def sync_images_new_variance (current : List String) (manifest : List (String × Nat))
    (upload : String → Option Nat) : List (String × Nat) :=
  ((added_refs current manifest).filterMap (fun u => (upload u).map (fun i => (u, i))))
  ++ ((unchanged_refs current manifest).filterMap
      (fun u => (manifest.lookup u).map (fun i => (u, i))))

/-- The iterated added list carries the added set of the diff. -/
theorem mem_added_refs (current : List String) (manifest : List (String × Nat))
    (u : String) :
    u ∈ added_refs current manifest ↔ u ∈ (get_image_variance current manifest).added := by
  simp [added_refs, get_image_variance, List.mem_filter, Finset.mem_sdiff]

/-- The iterated unchanged list carries the unchanged set of the diff. -/
theorem mem_unchanged_refs (current : List String) (manifest : List (String × Nat))
    (u : String) :
    u ∈ unchanged_refs current manifest
      ↔ u ∈ (get_image_variance current manifest).unchanged := by
  simp [unchanged_refs, get_image_variance, List.mem_filter, Finset.mem_inter]

/-- Every key of the written manifest is a current reference. -/
theorem new_variance_keys_current (current : List String) (manifest : List (String × Nat))
    (upload : String → Option Nat) (p : String × Nat)
    (hp : p ∈ sync_images_new_variance current manifest upload) :
    p.1 ∈ current.toFinset := by
  rcases List.mem_append.mp hp with h | h <;>
  · obtain ⟨u, hu, hmap⟩ := List.mem_filterMap.mp h
    rcases Option.map_eq_some'.mp hmap with ⟨i, _, rfl⟩
    have hu2 := List.mem_filter.mp hu
    simpa using List.mem_dedup.mp hu2.1

/-- When every upload succeeded, every current reference is a key of
the written manifest. -/
theorem new_variance_keys_cover (current : List String) (manifest : List (String × Nat))
    (upload : String → Option Nat)
    (hup : ∀ u ∈ (get_image_variance current manifest).added, (upload u).isSome)
    (u : String) (hu : u ∈ current.toFinset) :
    u ∈ manifest_keys (sync_images_new_variance current manifest upload) := by
  simp only [manifest_keys, List.mem_toFinset, List.mem_map]
  by_cases hk : u ∈ manifest_keys manifest
  · have hunch : u ∈ unchanged_refs current manifest := by
      rw [mem_unchanged_refs]
      simp only [get_image_variance, Finset.mem_inter]
      exact ⟨hu, hk⟩
    have hsome : (manifest.lookup u).isSome := by
      rw [List.lookup_isSome_iff]
      simp only [manifest_keys, List.mem_toFinset, List.mem_map] at hk
      obtain ⟨p, hpmem, hpk⟩ := hk
      exact ⟨p, hpmem, by simp [hpk]⟩
    obtain ⟨i, hi⟩ := Option.isSome_iff_exists.mp hsome
    refine ⟨(u, i), ?_, rfl⟩
    unfold sync_images_new_variance
    refine List.mem_append.mpr (Or.inr ?_)
    exact List.mem_filterMap.mpr ⟨u, hunch, by simp [hi]⟩
  · have hadd : u ∈ (get_image_variance current manifest).added := by
      simp only [get_image_variance, Finset.mem_sdiff]
      exact ⟨hu, hk⟩
    obtain ⟨i, hi⟩ := Option.isSome_iff_exists.mp (hup u hadd)
    refine ⟨(u, i), ?_, rfl⟩
    unfold sync_images_new_variance
    refine List.mem_append.mpr (Or.inl ?_)
    exact List.mem_filterMap.mpr ⟨u, (mem_added_refs current manifest u).mpr hadd, by simp [hi]⟩

/-- C7: the image diff equations hold in membership form, an added
reference is never a removed key, and re-diffing the unchanged current
set against the manifest written by a completed reconciliation (all
uploads succeeded) yields an empty added set and an empty removed list,
with everything unchanged. -/
theorem C7_image_diff_law :
    (∀ (current : List String) (manifest : List (String × Nat)) (u : String) (i : Nat),
      (u ∈ (get_image_variance current manifest).added ↔
          u ∈ current ∧ u ∉ manifest_keys manifest)
      ∧ (u ∈ (get_image_variance current manifest).unchanged ↔
          u ∈ current ∧ u ∈ manifest_keys manifest)
      ∧ (i ∈ (get_image_variance current manifest).removed ↔
          ∃ v, (v, i) ∈ manifest ∧ v ∉ current)
      ∧ Disjoint (get_image_variance current manifest).added
          (manifest_keys manifest \ current.toFinset))
    ∧ (∀ (current : List String) (manifest : List (String × Nat))
        (upload : String → Option Nat),
        (∀ u ∈ (get_image_variance current manifest).added, (upload u).isSome) →
        (get_image_variance current (sync_images_new_variance current manifest upload)).added = ∅
        ∧ (get_image_variance current (sync_images_new_variance current manifest upload)).removed = []
        ∧ (get_image_variance current (sync_images_new_variance current manifest upload)).unchanged
            = current.toFinset) := by
  constructor
  · intro current manifest u i
    refine ⟨?_, ?_, ?_, ?_⟩
    · simp [get_image_variance, Finset.mem_sdiff]
    · simp [get_image_variance, Finset.mem_inter]
    · simp only [get_image_variance, List.mem_map, List.mem_filter]
      constructor
      · rintro ⟨p, ⟨hpmem, hpc⟩, rfl⟩
        refine ⟨p.1, hpmem, ?_⟩
        simpa using hpc
      · rintro ⟨v, hvmem, hvc⟩
        refine ⟨(v, i), ⟨hvmem, ?_⟩, rfl⟩
        simpa using hvc
    · rw [Finset.disjoint_left]
      intro a ha hb
      simp only [get_image_variance, Finset.mem_sdiff, List.mem_toFinset] at ha hb
      exact hb.2 ha.1
  · intro current manifest upload hup
    have hsub : current.toFinset ⊆
        manifest_keys (sync_images_new_variance current manifest upload) :=
      fun u hu => new_variance_keys_cover current manifest upload hup u hu
    refine ⟨?_, ?_, ?_⟩
    · rw [show (get_image_variance current (sync_images_new_variance current manifest upload)).added
          = current.toFinset \ manifest_keys (sync_images_new_variance current manifest upload)
          from rfl]
      exact Finset.sdiff_eq_empty_iff_subset.mpr hsub
    · rw [show (get_image_variance current (sync_images_new_variance current manifest upload)).removed
          = ((sync_images_new_variance current manifest upload).filter
              (fun p => decide (p.1 ∉ current.toFinset))).map Prod.snd from rfl]
      rw [List.filter_eq_nil_iff.mpr ?_]
      · rfl
      · intro p hp
        simp [new_variance_keys_current current manifest upload p hp]
    · rw [show (get_image_variance current (sync_images_new_variance current manifest upload)).unchanged
          = current.toFinset ∩ manifest_keys (sync_images_new_variance current manifest upload)
          from rfl]
      exact Finset.inter_eq_left.mpr hsub

/-- Closed witness for the C7 theorem at a concrete reference set and
manifest: one reference stays, one is new, one manifest entry leaves. -/
theorem C7_image_diff_law_witness :
    ((get_image_variance ["a.jpg", "b.jpg"] [("b.jpg", 11), ("c.jpg", 12)]).added
        = { "a.jpg" }
      ∧ (get_image_variance ["a.jpg", "b.jpg"] [("b.jpg", 11), ("c.jpg", 12)]).removed = [12])
    ∧ (get_image_variance ["a.jpg", "b.jpg"]
        (sync_images_new_variance ["a.jpg", "b.jpg"] [("b.jpg", 11), ("c.jpg", 12)]
          (fun _ => some 99))).added = ∅ := by
  refine ⟨⟨by decide, by decide⟩, ?_⟩
  exact (C7_image_diff_law.2 ["a.jpg", "b.jpg"] [("b.jpg", 11), ("c.jpg", 12)]
    (fun _ => some 99) (by decide)).1
